import Mathlib

/-!
Shallow embedding of the Plan-It planning-agent core (backend/models.py,
backend/context_manager.py, backend/agent.py, backend/server.py) and
verification of the frozen specification claims.

The LLM collaborators are modelled as oracle function parameters:
the structured-decision call is an `Option AgentResponse` outcome per turn
(`none` = invocation error / no structured response) and the summarizer is a
`String → String` applied to the compression prompt. Timestamps are abstract
`Nat` values (the claims do not depend on wall-clock time). Python truthiness
on `Optional[str]` (where the empty string counts as absent) is modelled
explicitly by `optStrTruthy`.
-/

namespace PlanIt

-- ── Data model (backend/models.py) ──────────────────────────────────

/-- StepStatus enum: pending / in-progress / completed. -/
inductive StepStatus where
  | pending
  | inProgress
  | completed
deriving DecidableEq

/-- The `.value` string of a StepStatus. -/
def statusValue : StepStatus → String
  | .pending => "pending"
  | .inProgress => "in-progress"
  | .completed => "completed"

/-- PlanStep model. -/
structure PlanStep where
  id : String
  title : String
  description : String
  status : StepStatus
deriving DecidableEq

/-- Plan model. -/
structure Plan where
  title : String
  overview : String
  steps : List PlanStep
deriving DecidableEq

/-- ActionType enum. -/
inductive ActionType where
  | NONE
  | PROPOSE
  | CREATE
  | UPDATE
deriving DecidableEq

/-- Structured agent response (the LLM decision shape). -/
structure AgentResponse where
  thought : String
  response_to_user : String
  action : ActionType
  plan : Option Plan
  change_summary : Option String
  plan_summary : Option String
  conversation_summary : Option String
deriving DecidableEq

/-- MessageRole enum. -/
inductive MessageRole where
  | user
  | assistant
  | system
deriving DecidableEq

/-- The `.value` string of a MessageRole. -/
def roleValue : MessageRole → String
  | .user => "user"
  | .assistant => "assistant"
  | .system => "system"

/-- Message model; `timestamp` abstracts `datetime.utcnow()`. -/
structure Message where
  role : MessageRole
  content : String
  timestamp : Nat
  is_blocked : Bool
deriving DecidableEq

/-- PlanVersion model. -/
structure PlanVersion where
  version : Nat
  plan : Plan
  change_summary : String
  created_at : Nat
deriving DecidableEq

/-- The `user_preferences` dict. Only `extract_preferences` ever writes to it
and its key set is the fixed catalog \x7bdetail_level, tone\x7d, so the dict is
modelled as one optional value per catalog category (`none` = key absent). -/
structure Prefs where
  detail_level : Option String
  tone : Option String
deriving DecidableEq

/-- Session model (aggregate root). -/
structure Session where
  session_id : String
  user_id : Option String
  plan_name : Option String
  messages : List Message
  current_plan : Option Plan
  pending_plan : Option Plan
  plan_versions : List PlanVersion
  user_preferences : Prefs
  compressed_context : Option String
  conversation_summary : Option String
  plan_summary : Option String
  change_summary : Option String
  turn_count : Nat
deriving DecidableEq

/-- ChatResponse model (API response of POST /chat). `plan_version` is
`Optional[int]`, `awaiting_confirmation` defaults to `false`. -/
structure ChatResponse where
  response : String
  plan : Option Plan
  action : ActionType
  change_summary : Option String
  plan_summary : Option String
  conversation_summary : Option String
  turn_count : Nat
  plan_version : Option Nat
  awaiting_confirmation : Bool
deriving DecidableEq

-- ── Python helpers ──────────────────────────────────────────────────

/-- Python truthiness of an `Optional[str]`: `None` and `""` are falsy. -/
def optStrTruthy : Option String → Bool
  | none => false
  | some s => !s.data.isEmpty

/-- Python `x or default` for `x : Optional[str]` (empty string falls back). -/
def orElseStr (o : Option String) (d : String) : String :=
  match o with
  | none => d
  | some s => if s.data.isEmpty then d else s

/-- Python truthiness of the preferences dict (non-empty dict is truthy). -/
def prefsTruthy (p : Prefs) : Bool :=
  p.detail_level.isSome || p.tone.isSome

/-- `json.dumps(user_preferences)` rendered with catalog-order keys. -/
def prefsJson (p : Prefs) : String :=
  let parts :=
    (match p.detail_level with
     | some v => ["\x22detail_level\x22: \x22" ++ v ++ "\x22"]
     | none => []) ++
    (match p.tone with
     | some v => ["\x22tone\x22: \x22" ++ v ++ "\x22"]
     | none => [])
  "\x7b" ++ String.intercalate ", " parts ++ "\x7d"

-- ── Substring search (Python `word in lower`) ───────────────────────

/-- Whether `pat` occurs at the head of `s` (character lists). -/
def headMatches : List Char → List Char → Bool
  | [], _ => true
  | _ :: _, [] => false
  | p :: ps, c :: cs => p == c && headMatches ps cs

/-- Whether `pat` occurs as a contiguous sublist of `s`. -/
def hasSubList (pat : List Char) : List Char → Bool
  | [] => pat.isEmpty
  | c :: rest => headMatches pat (c :: rest) || hasSubList pat rest

/-- Python substring containment `pat in s`. -/
def strHasStr (pat s : String) : Bool :=
  hasSubList pat.data s.data

/-- Python `str.lower()` as a per-character map (the catalog keywords are
ASCII, so basic-latin lowering is faithful here). -/
def toLowerStr (s : String) : String :=
  String.mk (s.data.map Char.toLower)

-- ── context_manager.py constants ────────────────────────────────────

def TOKEN_LIMIT : Nat := 8000

def CHARS_PER_TOKEN : Nat := 4

def CHAR_LIMIT : Nat := TOKEN_LIMIT * CHARS_PER_TOKEN

/-- `int(CHAR_LIMIT * 0.75)` = 24000. -/
def COMPRESSION_THRESHOLD : Nat := CHAR_LIMIT * 3 / 4

-- ── Plan formatting (context_manager._format_plan_for_context) ──────

/-- Render a plan (or its absence) as the human-readable outline used in
LLM prompts. -/
def formatPlanForContext (plan : Option Plan) : String :=
  match plan with
  | none => "No plan has been created yet."
  | some p =>
    let lines := ["## Current Plan: " ++ p.title,
                  "**Overview:** " ++ p.overview,
                  "### Steps:"] ++
      p.steps.map (fun step =>
        "- [" ++ statusValue step.status ++ "] **" ++ step.id ++ ": " ++
          step.title ++ "** – " ++ step.description)
    String.intercalate "\n" lines

-- ── Preference extraction (context_manager.extract_preferences) ─────

/-- The `detail_level` row of the `_PREFERENCE_KEYWORDS` catalog, in Python
dict iteration (insertion) order. -/
def detailKeywords : List (String × String) :=
  [("detailed", "detailed"), ("brief", "brief"), ("concise", "brief"),
   ("verbose", "detailed"), ("short", "brief")]

/-- The `tone` row of the `_PREFERENCE_KEYWORDS` catalog. -/
def toneKeywords : List (String × String) :=
  [("formal", "formal"), ("casual", "casual"),
   ("professional", "formal"), ("friendly", "casual")]

/-- The `_PREFERENCE_KEYWORDS` catalog in Python dict iteration
(insertion) order. -/
def PREFERENCE_KEYWORDS : List (String × List (String × String)) :=
  [("detail_level", detailKeywords), ("tone", toneKeywords)]

/-- Dict assignment `updated[pref_key] = value` for the catalog keys. -/
def prefsSet (p : Prefs) (key v : String) : Prefs :=
  if key = "detail_level" then { p with detail_level := some v }
  else if key = "tone" then { p with tone := some v }
  else p

/-- Keyword-based preference extraction: for each catalog category, scan its
keywords in order and assign the category value on every substring hit
(so the last hit in scan order wins). -/
def extract_preferences (text : String) (existing : Prefs) : Prefs :=
  let lower := toLowerStr text
  PREFERENCE_KEYWORDS.foldl
    (fun updated catKws =>
      catKws.2.foldl
        (fun u wv => if strHasStr wv.1 lower then prefsSet u catKws.1 wv.2 else u)
        updated)
    existing

-- ── Compression (context_manager.compress_history / maybe_compress) ─

/-- Total character length of a message list. -/
def sumLens (ms : List Message) : Nat :=
  (ms.map (fun m => m.content.length)).sum

/-- The compression prompt text (an f-string in the source). -/
def compressionPrompt (history_text plan_text prefs_text : String) : String :=
  "You are a context-compression assistant.\nSummarize the following conversation into a concise paragraph that preserves:\n1. The user\x27s original goal and all key requirements.\n2. Every decision, preference, and constraint mentioned.\n3. The current state of the plan (included below for reference).\n4. Any open questions or pending items.\n\nKeep the summary under 600 words.\n\n--- CONVERSATION ---\n"
    ++ history_text
    ++ "\n\n--- CURRENT PLAN ---\n"
    ++ plan_text
    ++ "\n\n--- DETECTED USER PREFERENCES ---\n"
    ++ prefs_text
    ++ "\n"

/-- Compress a history into a summary via the LLM oracle `llm` (which maps
the compression prompt to the response content). -/
def compress_history (messages : List Message) (current_plan : Option Plan)
    (user_preferences : Prefs) (llm : String → String) : String :=
  let history_text :=
    String.intercalate "\n"
      (messages.map (fun m => "[" ++ roleValue m.role ++ "] " ++ m.content))
  let plan_text := formatPlanForContext current_plan
  let prefs_text :=
    if prefsTruthy user_preferences then prefsJson user_preferences
    else "None detected."
  llm (compressionPrompt history_text plan_text prefs_text)

/-- Total character count driving the compression trigger: all message
contents plus the existing digest (when truthy). -/
def totalChars (session : Session) : Nat :=
  sumLens session.messages +
    (if optStrTruthy session.compressed_context then
      (session.compressed_context.getD "").length
     else 0)

/-- The synthetic system message carrying the pre-existing digest into the
summarization input. -/
def priorCtxMsg (session : Session) : Message :=
  { role := MessageRole.system,
    content := "[Prior compressed context]: " ++ session.compressed_context.getD "",
    timestamp := 0, is_blocked := false }

/-- Compress the session history when the character threshold is met:
keep the 4 most recent messages verbatim, summarize the rest together with
any pre-existing digest, and return a new session value. -/
def maybe_compress (session : Session) (llm : String → String) : Session :=
  if totalChars session < COMPRESSION_THRESHOLD then session
  else
    let keep_recent := 4
    let messages_to_compress :=
      if keep_recent < session.messages.length then
        session.messages.take (session.messages.length - keep_recent)
      else []
    let recent_messages :=
      if keep_recent < session.messages.length then
        session.messages.drop (session.messages.length - keep_recent)
      else session.messages
    if messages_to_compress.isEmpty && !optStrTruthy session.compressed_context then
      session
    else
      let all_to_compress :=
        (if optStrTruthy session.compressed_context then [priorCtxMsg session]
         else []) ++ messages_to_compress
      let compressed :=
        compress_history all_to_compress session.current_plan
          session.user_preferences llm
      { session with compressed_context := some compressed,
                     messages := recent_messages }

-- ── Context assembly (context_manager.build_context_messages) ───────

/-- A role/content dict entry handed to the LLM. -/
structure CtxMsg where
  role : String
  content : String
deriving DecidableEq

/-- Build the ordered LLM context: optional compressed-context system entry,
then every non-blocked message in original order. -/
def build_context_messages (session : Session) : List CtxMsg :=
  (if optStrTruthy session.compressed_context then
    [{ role := "system",
       content := "[Compressed prior context]\n" ++
         session.compressed_context.getD "" }]
   else []) ++
  (session.messages.filter (fun m => !m.is_blocked)).map
    (fun m => { role := roleValue m.role, content := m.content })

-- ── Turn orchestrator (backend/agent.py) ────────────────────────────

/-- preprocess_node: record the user message, bump turn_count, extract
preferences, then maybe compress. The summarizer oracle is `llm`. -/
def preprocess (session : Session) (user_input : String)
    (llm : String → String) : Session :=
  let s1 := { session with
    messages := session.messages ++
      [{ role := MessageRole.user, content := user_input,
         timestamp := 0, is_blocked := false }],
    turn_count := session.turn_count + 1,
    user_preferences := extract_preferences user_input session.user_preferences }
  maybe_compress s1 llm

/-- The fixed fallback assistant message recorded on a degraded turn. -/
def fallbackAssistantMsg : String :=
  "I\x27m sorry, I ran into an issue processing your request. Could you try rephrasing?"

/-- The plan-handling branch of postprocess_node: the `if action == X and
plan:` chain (a Pydantic Plan object is always truthy, so plan truthiness is
presence). -/
def applyDecision (s : Session) (resp : AgentResponse) : Session :=
  match resp.action, resp.plan with
  | .PROPOSE, some p => { s with pending_plan := some p }
  | .CREATE, some p =>
    { s with current_plan := some p,
             pending_plan := none,
             plan_versions := s.plan_versions ++
               [{ version := s.plan_versions.length + 1,
                  plan := p,
                  change_summary :=
                    orElseStr resp.change_summary "Plan confirmed and created.",
                  created_at := 0 }] }
  | .UPDATE, some p =>
    { s with current_plan := some p,
             plan_versions := s.plan_versions ++
               [{ version := s.plan_versions.length + 1,
                  plan := p,
                  change_summary := orElseStr resp.change_summary "Plan updated.",
                  created_at := 0 }] }
  | _, _ => s

/-- postprocess_node: on a degraded turn (`none` decision) record only the
fallback assistant message; otherwise record the reply, apply the decision,
and persist the rolling conversation summary. -/
def postprocess (session : Session) (decision : Option AgentResponse) : Session :=
  match decision with
  | none =>
    { session with messages := session.messages ++
        [{ role := MessageRole.assistant, content := fallbackAssistantMsg,
           timestamp := 0, is_blocked := false }] }
  | some resp =>
    let s1 := { session with messages := session.messages ++
        [{ role := MessageRole.assistant, content := resp.response_to_user,
           timestamp := 0, is_blocked := false }] }
    let s2 := applyDecision s1 resp
    if optStrTruthy resp.conversation_summary then
      { s2 with conversation_summary := resp.conversation_summary }
    else s2

/-- One full agent turn (run_agent): preprocess, then postprocess with the
decision oracle outcome (`none` models a Decide-stage error; generate_node
itself does not mutate the session). -/
def run_turn (session : Session) (user_input : String)
    (llm : String → String) (decision : Option AgentResponse) : Session :=
  postprocess (preprocess session user_input llm) decision

-- ── Reachability: sequences of turns ────────────────────────────────

/-- One submitted turn: the user text, the summarizer oracle in effect, and
the decision-call outcome. -/
structure Turn where
  input : String
  llm : String → String
  decision : Option AgentResponse

/-- Run a sequence of turns against a session. -/
def runTurns (s : Session) (ts : List Turn) : Session :=
  ts.foldl (fun acc t => run_turn acc t.input t.llm t.decision) s

/-- A freshly created session (POST /session): empty messages, no plans,
no versions, empty preferences, zero turn_count. -/
def initSession (sid : String) (uid : Option String) : Session :=
  { session_id := sid, user_id := uid, plan_name := none, messages := [],
    current_plan := none, pending_plan := none, plan_versions := [],
    user_preferences := { detail_level := none, tone := none },
    compressed_context := none, conversation_summary := none,
    plan_summary := none, change_summary := none, turn_count := 0 }

-- ── Chat endpoint (backend/server.py chat) ──────────────────────────

/-- The fixed fallback response text the caller receives on a degraded turn. -/
def fallbackChatText : String :=
  "Sorry, something went wrong. Please try again."

/-- POST /chat: run the agent for one turn, then build the ChatResponse
(degraded path when the decision is `none`). `plan_version` is
`len(plan_versions) if plan_versions else None`. -/
def chat (session : Session) (message : String)
    (llm : String → String) (decision : Option AgentResponse) :
    Session × ChatResponse :=
  let updated := run_turn session message llm decision
  match decision with
  | none =>
    (updated,
     { response := fallbackChatText,
       plan := updated.current_plan,
       action := ActionType.NONE,
       change_summary := none,
       plan_summary := none,
       conversation_summary := updated.conversation_summary,
       turn_count := updated.turn_count,
       plan_version :=
         if updated.plan_versions.isEmpty then none
         else some updated.plan_versions.length,
       awaiting_confirmation := false })
  | some resp =>
    (updated,
     { response := resp.response_to_user,
       plan := if resp.action ≠ ActionType.NONE then resp.plan
               else updated.current_plan,
       action := resp.action,
       change_summary := resp.change_summary,
       plan_summary := resp.plan_summary,
       conversation_summary := resp.conversation_summary,
       turn_count := updated.turn_count,
       plan_version :=
         if updated.plan_versions.isEmpty then none
         else some updated.plan_versions.length,
       awaiting_confirmation := updated.pending_plan.isSome })

-- ── History endpoint (server.get_history) ───────────────────────────

/-- One entry of GET /session/\x7bid\x7d/history. -/
structure HistEntry where
  role : String
  content : String
  timestamp : Nat
deriving DecidableEq

/-- GET /session/\x7bid\x7d/history returns every message of the session,
blocked or not. -/
def get_history (session : Session) : List HistEntry :=
  session.messages.map
    (fun m => { role := roleValue m.role, content := m.content,
                timestamp := m.timestamp })

-- ── Spec-side helper definitions used in theorem statements ─────────

/-- The value of the last keyword of `kws` (in scan order) that occurs in
`lower`, if any. Formalizes the spec phrase "the last matching keyword found
in the scan order wins". -/
def lastKeywordMatch (kws : List (String × String)) (lower : String) :
    Option String :=
  kws.foldl (fun acc wv => if strHasStr wv.1 lower then some wv.2 else acc) none

/-- The dense 1-based sequence [1, 2, ..., n]. -/
def oneTo : Nat → List Nat
  | 0 => []
  | n + 1 => oneTo n ++ [n + 1]

/-- Whether a decision outcome appends a plan version when applied: a
successfully applied CREATE or UPDATE (action with a plan present). -/
def addsVersion : Option AgentResponse → Bool
  | none => false
  | some r =>
    (r.action == ActionType.CREATE || r.action == ActionType.UPDATE) &&
      r.plan.isSome

/-- The number of CREATE/UPDATE decisions successfully applied over a turn
sequence. -/
def countCU (ts : List Turn) : Nat :=
  ts.countP (fun t => addsVersion t.decision)

/-- The compressed-context system entry at the head of the assembled
context. -/
def ctxHead (s : Session) : CtxMsg :=
  { role := "system",
    content := "[Compressed prior context]\n" ++ s.compressed_context.getD "" }

/-- The non-blocked messages of the session rendered as context entries. -/
def ctxTail (s : Session) : List CtxMsg :=
  (s.messages.filter (fun m => !m.is_blocked)).map
    (fun m => { role := roleValue m.role, content := m.content })

-- ── Concrete example values for witnesses and counterexamples ───────

/-- A string of `n` letters `a`. -/
def bigA (n : Nat) : String :=
  String.mk (List.replicate n 'a')

/-- A short user message. -/
def mkUserMsg (c : String) : Message :=
  { role := MessageRole.user, content := c, timestamp := 0, is_blocked := false }

def exPlanW : Plan :=
  { title := "Trip", overview := "A short trip plan.", steps := [] }

def exRespPropose : AgentResponse :=
  { thought := "draft", response_to_user := "Shall I finalize?",
    action := ActionType.PROPOSE, plan := some exPlanW,
    change_summary := some "Initial draft.", plan_summary := some "One plan.",
    conversation_summary := some "User wants a trip." }

def exRespNoPlan : AgentResponse :=
  { thought := "oops", response_to_user := "Created!",
    action := ActionType.CREATE, plan := none,
    change_summary := none, plan_summary := none,
    conversation_summary := some "Summary." }

/-- A summarizer oracle returning the character length of its prompt. -/
def lenLLM : String → String :=
  fun p => Nat.repr p.length

/-- A constant summarizer oracle. -/
def constLLM : String → String :=
  fun _ => "digest"

/-- C5 counterexample input: a single 24000-character message (threshold met,
no prior digest, nothing older than the retention window). -/
def exS5 : Session :=
  { initSession "s5" none with messages := [mkUserMsg (bigA 24000)] }

/-- C5 witness input: five 5000-character messages. -/
def exS5w : Session :=
  { initSession "s5w" none with
    messages := [mkUserMsg (bigA 5000), mkUserMsg (bigA 5000),
                 mkUserMsg (bigA 5000), mkUserMsg (bigA 5000),
                 mkUserMsg (bigA 5000)] }

/-- C6 counterexample base: one tiny message followed by four 6000-character
messages (24001 chars total), no digest. -/
def exS6base : Session :=
  { initSession "s6" none with
    messages := [mkUserMsg "x", mkUserMsg (bigA 6000), mkUserMsg (bigA 6000),
                 mkUserMsg (bigA 6000), mkUserMsg (bigA 6000)] }

/-- The digest produced when `exS6base` fires under `lenLLM`. -/
def exS6digest : String :=
  lenLLM (compressionPrompt "[user] x" "No plan has been created yet."
    "None detected.")

/-- `exS6base` right after compression fired: four big messages retained,
digest set. -/
def exS6fired : Session :=
  { exS6base with
    compressed_context := some exS6digest,
    messages := [mkUserMsg (bigA 6000), mkUserMsg (bigA 6000),
                 mkUserMsg (bigA 6000), mkUserMsg (bigA 6000)] }

/-- The digest produced by the second (re-)compression of `exS6fired`. -/
def exS6digest2 : String :=
  lenLLM (compressionPrompt
    ("[system] [Prior compressed context]: " ++ exS6digest)
    "No plan has been created yet." "None detected.")

/-- C7 counterexample input: `compressed_context` present but empty. -/
def exS7 : Session :=
  { initSession "s7" none with
    compressed_context := some "",
    messages := [mkUserMsg "m"] }

/-- C7 witness input: non-empty digest, one blocked and one live message. -/
def exS7w : Session :=
  { initSession "s7w" none with
    compressed_context := some "old digest",
    messages := [{ role := MessageRole.user, content := "secret",
                   timestamp := 3, is_blocked := true },
                 { role := MessageRole.assistant, content := "visible",
                   timestamp := 7, is_blocked := false }] }

/-- C9 counterexample input: a session already awaiting confirmation. -/
def exS9 : Session :=
  { initSession "s9" none with pending_plan := some exPlanW }

-- ── Helper lemmas ───────────────────────────────────────────────────

theorem bigA_length (n : Nat) : (bigA n).length = n := by
  have h : (bigA n).length = (List.replicate n 'a').length := rfl
  rw [h, List.length_replicate]

theorem maybe_compress_plan_versions (s : Session) (llm : String → String) :
    (maybe_compress s llm).plan_versions = s.plan_versions := by
  simp only [maybe_compress]
  split_ifs <;> rfl

theorem maybe_compress_turn_count (s : Session) (llm : String → String) :
    (maybe_compress s llm).turn_count = s.turn_count := by
  simp only [maybe_compress]
  split_ifs <;> rfl

theorem maybe_compress_current_plan (s : Session) (llm : String → String) :
    (maybe_compress s llm).current_plan = s.current_plan := by
  simp only [maybe_compress]
  split_ifs <;> rfl

theorem maybe_compress_pending_plan (s : Session) (llm : String → String) :
    (maybe_compress s llm).pending_plan = s.pending_plan := by
  simp only [maybe_compress]
  split_ifs <;> rfl

theorem maybe_compress_small (s : Session) (llm : String → String)
    (h1 : s.messages.length ≤ 4)
    (h2 : optStrTruthy s.compressed_context = false) :
    maybe_compress s llm = s := by
  simp only [maybe_compress]
  have h3 : ¬ (4 < s.messages.length) := Nat.not_lt.mpr h1
  split_ifs <;> simp_all

theorem maybe_compress_fires (s : Session) (llm : String → String)
    (h1 : COMPRESSION_THRESHOLD ≤ totalChars s)
    (h2 : 4 < s.messages.length) :
    maybe_compress s llm =
      { s with
        compressed_context := some (compress_history
          ((if optStrTruthy s.compressed_context then [priorCtxMsg s] else []) ++
            s.messages.take (s.messages.length - 4))
          s.current_plan s.user_preferences llm),
        messages := s.messages.drop (s.messages.length - 4) } := by
  have hng : ¬ (totalChars s < COMPRESSION_THRESHOLD) := Nat.not_lt.mpr h1
  have htake : s.messages.take (s.messages.length - 4) ≠ [] := by
    intro hnil
    have := List.take_eq_nil_iff.mp hnil
    rcases this with h | h
    · omega
    · simp [h] at h2
  have hempty : (s.messages.take (s.messages.length - 4)).isEmpty = false := by
    simpa [List.isEmpty_iff] using htake
  simp only [maybe_compress]
  rw [if_neg hng]
  simp only [if_pos h2, hempty, Bool.false_and]
  simp

theorem maybe_compress_refire (s : Session) (llm : String → String)
    (h1 : COMPRESSION_THRESHOLD ≤ totalChars s)
    (h2 : s.messages.length ≤ 4)
    (h3 : optStrTruthy s.compressed_context = true) :
    maybe_compress s llm =
      { s with compressed_context := some (compress_history [priorCtxMsg s]
          s.current_plan s.user_preferences llm) } := by
  have hng : ¬ (totalChars s < COMPRESSION_THRESHOLD) := Nat.not_lt.mpr h1
  have h4 : ¬ (4 < s.messages.length) := Nat.not_lt.mpr h2
  simp only [maybe_compress]
  rw [if_neg hng]
  simp only [if_neg h4, h3, List.isEmpty_nil, Bool.not_true, Bool.and_false]
  simp

theorem totalChars_of_cc_none (s : Session)
    (h : s.compressed_context = none) :
    totalChars s = sumLens s.messages := by
  unfold totalChars
  rw [h]
  simp [optStrTruthy]

theorem totalChars_of_cc_some (s : Session) (c : String)
    (h : s.compressed_context = some c) (hc : c.data.isEmpty = false) :
    totalChars s = sumLens s.messages + c.length := by
  unfold totalChars
  rw [h]
  simp [optStrTruthy, hc]

theorem preprocess_plan_versions (s : Session) (u : String)
    (llm : String → String) :
    (preprocess s u llm).plan_versions = s.plan_versions := by
  unfold preprocess
  rw [maybe_compress_plan_versions]

theorem preprocess_turn_count (s : Session) (u : String)
    (llm : String → String) :
    (preprocess s u llm).turn_count = s.turn_count + 1 := by
  unfold preprocess
  rw [maybe_compress_turn_count]

theorem postprocess_turn_count (s : Session) (d : Option AgentResponse) :
    (postprocess s d).turn_count = s.turn_count := by
  cases d with
  | none => rfl
  | some r =>
    cases r with
    | mk th ru ac pl cs ps conv =>
      cases ac <;> cases pl <;>
        simp only [postprocess, applyDecision] <;> split_ifs <;> rfl

theorem postprocess_versions_map (s : Session) (d : Option AgentResponse) :
    ((postprocess s d).plan_versions.map PlanVersion.version =
      (if addsVersion d then
        s.plan_versions.map PlanVersion.version ++ [s.plan_versions.length + 1]
       else s.plan_versions.map PlanVersion.version)) ∧
    ((postprocess s d).plan_versions.length =
      (if addsVersion d then s.plan_versions.length + 1
       else s.plan_versions.length)) := by
  cases d with
  | none => simp [postprocess, addsVersion]
  | some r =>
    cases r with
    | mk th ru ac pl cs ps conv =>
      cases ac <;> cases pl <;>
        simp only [postprocess, applyDecision, addsVersion] <;>
        split_ifs <;> simp_all

theorem run_turn_versions_map (s : Session) (u : String)
    (llm : String → String) (d : Option AgentResponse) :
    ((run_turn s u llm d).plan_versions.map PlanVersion.version =
      (if addsVersion d then
        s.plan_versions.map PlanVersion.version ++ [s.plan_versions.length + 1]
       else s.plan_versions.map PlanVersion.version)) ∧
    ((run_turn s u llm d).plan_versions.length =
      (if addsVersion d then s.plan_versions.length + 1
       else s.plan_versions.length)) := by
  unfold run_turn
  have hpre := preprocess_plan_versions s u llm
  obtain ⟨h1, h2⟩ := postprocess_versions_map (preprocess s u llm) d
  rw [hpre] at h1 h2
  exact ⟨h1, h2⟩

theorem run_turn_turn_count (s : Session) (u : String)
    (llm : String → String) (d : Option AgentResponse) :
    (run_turn s u llm d).turn_count = s.turn_count + 1 := by
  unfold run_turn
  rw [postprocess_turn_count, preprocess_turn_count]

theorem runTurns_cons (s : Session) (t : Turn) (ts : List Turn) :
    runTurns s (t :: ts) = runTurns (run_turn s t.input t.llm t.decision) ts :=
  rfl

theorem runTurns_turn_count (ts : List Turn) : ∀ s : Session,
    (runTurns s ts).turn_count = s.turn_count + ts.length := by
  induction ts with
  | nil => intro s; simp [runTurns]
  | cons t ts ih =>
    intro s
    rw [runTurns_cons, ih, run_turn_turn_count]
    simp only [List.length_cons]
    omega

theorem runTurns_versions (ts : List Turn) : ∀ s : Session,
    s.plan_versions.map PlanVersion.version = oneTo s.plan_versions.length →
    (runTurns s ts).plan_versions.map PlanVersion.version =
      oneTo ((runTurns s ts).plan_versions.length) ∧
    (runTurns s ts).plan_versions.length =
      s.plan_versions.length + countCU ts := by
  induction ts with
  | nil => intro s h; simpa [runTurns, countCU] using h
  | cons t ts ih =>
    intro s h
    obtain ⟨hm, hl⟩ := run_turn_versions_map s t.input t.llm t.decision
    rw [runTurns_cons]
    have h' : (run_turn s t.input t.llm t.decision).plan_versions.map
        PlanVersion.version =
        oneTo (run_turn s t.input t.llm t.decision).plan_versions.length := by
      rw [hm, hl]
      by_cases hc : addsVersion t.decision
      · simp [hc, h, oneTo]
      · simp [hc, h]
    obtain ⟨g1, g2⟩ := ih (run_turn s t.input t.llm t.decision) h'
    refine ⟨g1, ?_⟩
    rw [g2, hl]
    by_cases hc : addsVersion t.decision
    · simp [countCU, List.countP_cons, hc]
      omega
    · simp [countCU, List.countP_cons, hc]

-- ── Claim theorems ──────────────────────────────────────────────────

/-- C1: for every session and every structured decision carrying a plan,
applying the decision satisfies the action table: PROPOSE sets
`pending_plan` to the decision plan and never changes `current_plan`;
CREATE sets `current_plan` to the decision plan and always clears
`pending_plan`; UPDATE sets `current_plan` to the decision plan and never
touches `pending_plan`. -/
theorem C1_apply_action_table (s : Session) (r : AgentResponse) (p : Plan)
    (hp : r.plan = some p) :
    (r.action = ActionType.PROPOSE →
      (applyDecision s r).pending_plan = some p ∧
      (applyDecision s r).current_plan = s.current_plan) ∧
    (r.action = ActionType.CREATE →
      (applyDecision s r).current_plan = some p ∧
      (applyDecision s r).pending_plan = none) ∧
    (r.action = ActionType.UPDATE →
      (applyDecision s r).current_plan = some p ∧
      (applyDecision s r).pending_plan = s.pending_plan) := by
  refine ⟨fun ha => ?_, fun ha => ?_, fun ha => ?_⟩ <;>
    simp [applyDecision, ha, hp]

/-- Witness for C1 at a concrete PROPOSE decision. -/
theorem C1_apply_action_table_witness :
    exRespPropose.plan = some exPlanW ∧
    exRespPropose.action = ActionType.PROPOSE ∧
    ((applyDecision (initSession "w1" none) exRespPropose).pending_plan =
      some exPlanW ∧
     (applyDecision (initSession "w1" none) exRespPropose).current_plan =
      (initSession "w1" none).current_plan) :=
  ⟨rfl, rfl,
   (C1_apply_action_table (initSession "w1" none) exRespPropose exPlanW
     rfl).1 rfl⟩

/-- C2: in every reachable session (any turn sequence run against a fresh
session), the plan-version numbers form the dense 1-based sequence
1, 2, ..., n, and the number of versions equals the number of CREATE and
UPDATE decisions successfully applied (action CREATE or UPDATE with a plan
present); ingest, compression and apply all preserve this. -/
theorem C2_plan_versions_dense (sid : String) (uid : Option String)
    (ts : List Turn) :
    (runTurns (initSession sid uid) ts).plan_versions.map PlanVersion.version =
      oneTo ((runTurns (initSession sid uid) ts).plan_versions.length) ∧
    (runTurns (initSession sid uid) ts).plan_versions.length = countCU ts := by
  have h := runTurns_versions ts (initSession sid uid)
    (by simp [initSession, oneTo])
  simpa [initSession] using h

/-- C3: `turn_count` increases by exactly 1 per processed user message,
whether or not the LLM decision call succeeds, and after n submitted turns
on a fresh session it equals n. -/
theorem C3_turn_count_per_message :
    (∀ (s : Session) (u : String) (llm : String → String)
      (d : Option AgentResponse),
      (run_turn s u llm d).turn_count = s.turn_count + 1) ∧
    (∀ (sid : String) (uid : Option String) (ts : List Turn),
      (runTurns (initSession sid uid) ts).turn_count = ts.length) := by
  refine ⟨run_turn_turn_count, fun sid uid ts => ?_⟩
  rw [runTurns_turn_count]
  simp [initSession]

/-- C4: when the LLM decision call fails, the apply stage changes no plan
state — `current_plan`, `pending_plan` and `plan_versions` are exactly as
after ingest, only the fixed fallback assistant message is recorded — and
the chat caller receives the fixed fallback response text. -/
theorem C4_degraded_turn_preserves_plan_state (s : Session) (u : String)
    (llm : String → String) :
    (run_turn s u llm none).current_plan = (preprocess s u llm).current_plan ∧
    (run_turn s u llm none).pending_plan = (preprocess s u llm).pending_plan ∧
    (run_turn s u llm none).plan_versions =
      (preprocess s u llm).plan_versions ∧
    (run_turn s u llm none).messages = (preprocess s u llm).messages ++
      [{ role := MessageRole.assistant, content := fallbackAssistantMsg,
         timestamp := 0, is_blocked := false }] ∧
    (chat s u llm none).2.response = fallbackChatText := by
  refine ⟨rfl, rfl, rfl, rfl, rfl⟩

/-- C10: a decision whose action is PROPOSE, CREATE or UPDATE but whose plan
is absent changes no plan state when applied: `current_plan`, `pending_plan`
and `plan_versions` are unchanged; only the assistant message is recorded
and the conversation summary persisted; no error is raised (the function is
total). -/
theorem C10_missing_plan_is_noop (s : Session) (r : AgentResponse)
    (hp : r.plan = none)
    (ha : r.action = ActionType.PROPOSE ∨ r.action = ActionType.CREATE ∨
          r.action = ActionType.UPDATE) :
    (postprocess s (some r)).current_plan = s.current_plan ∧
    (postprocess s (some r)).pending_plan = s.pending_plan ∧
    (postprocess s (some r)).plan_versions = s.plan_versions ∧
    (postprocess s (some r)).messages = s.messages ++
      [{ role := MessageRole.assistant, content := r.response_to_user,
         timestamp := 0, is_blocked := false }] ∧
    (postprocess s (some r)).conversation_summary =
      (if optStrTruthy r.conversation_summary then r.conversation_summary
       else s.conversation_summary) := by
  cases r with
  | mk th ru ac pl cs ps conv =>
    cases hp
    cases ac <;>
      simp only [postprocess, applyDecision] <;> split_ifs <;> simp_all

/-- Witness for C10 at a concrete CREATE decision missing its plan. -/
theorem C10_missing_plan_is_noop_witness :
    exRespNoPlan.plan = none ∧
    (exRespNoPlan.action = ActionType.PROPOSE ∨
     exRespNoPlan.action = ActionType.CREATE ∨
     exRespNoPlan.action = ActionType.UPDATE) ∧
    ((postprocess (initSession "w10" none) (some exRespNoPlan)).current_plan =
      (initSession "w10" none).current_plan ∧
     (postprocess (initSession "w10" none) (some exRespNoPlan)).pending_plan =
      (initSession "w10" none).pending_plan ∧
     (postprocess (initSession "w10" none) (some exRespNoPlan)).plan_versions =
      (initSession "w10" none).plan_versions ∧
     (postprocess (initSession "w10" none) (some exRespNoPlan)).messages =
      (initSession "w10" none).messages ++
       [{ role := MessageRole.assistant, content := exRespNoPlan.response_to_user,
          timestamp := 0, is_blocked := false }] ∧
     (postprocess (initSession "w10" none) (some exRespNoPlan)).conversation_summary =
      (if optStrTruthy exRespNoPlan.conversation_summary then
        exRespNoPlan.conversation_summary
       else (initSession "w10" none).conversation_summary)) :=
  ⟨rfl, Or.inr (Or.inl rfl),
   C10_missing_plan_is_noop (initSession "w10" none) exRespNoPlan rfl
     (Or.inr (Or.inl rfl))⟩

theorem lastKeywordMatch_from (kws : List (String × String)) (lower : String) :
    ∀ acc : Option String,
    kws.foldl (fun a wv => if strHasStr wv.1 lower then some wv.2 else a) acc =
      (match lastKeywordMatch kws lower with
       | some v => some v
       | none => acc) := by
  induction kws with
  | nil =>
    intro acc
    rfl
  | cons wv kws ih =>
    intro acc
    have hcons : lastKeywordMatch (wv :: kws) lower =
        kws.foldl (fun a x => if strHasStr x.1 lower then some x.2 else a)
          (if strHasStr wv.1 lower then some wv.2 else none) := rfl
    rw [List.foldl_cons, ih, hcons, ih]
    by_cases hhit : strHasStr wv.1 lower = true <;>
      cases hL : lastKeywordMatch kws lower <;> simp [hhit, hL]

theorem foldl_detail_eq (kws : List (String × String)) (lower : String) :
    ∀ u : Prefs,
    kws.foldl (fun u wv =>
      if strHasStr wv.1 lower then prefsSet u "detail_level" wv.2 else u) u =
      { u with detail_level :=
          (match lastKeywordMatch kws lower with
           | some v => some v
           | none => u.detail_level) } := by
  induction kws with
  | nil =>
    intro u
    rfl
  | cons wv kws ih =>
    intro u
    have hcons : lastKeywordMatch (wv :: kws) lower =
        kws.foldl (fun a x => if strHasStr x.1 lower then some x.2 else a)
          (if strHasStr wv.1 lower then some wv.2 else none) := rfl
    rw [List.foldl_cons, ih, hcons, lastKeywordMatch_from]
    by_cases hhit : strHasStr wv.1 lower = true <;>
      cases hL : lastKeywordMatch kws lower <;> simp [hhit, hL, prefsSet]

theorem foldl_tone_eq (kws : List (String × String)) (lower : String) :
    ∀ u : Prefs,
    kws.foldl (fun u wv =>
      if strHasStr wv.1 lower then prefsSet u "tone" wv.2 else u) u =
      { u with tone :=
          (match lastKeywordMatch kws lower with
           | some v => some v
           | none => u.tone) } := by
  induction kws with
  | nil =>
    intro u
    rfl
  | cons wv kws ih =>
    intro u
    have hcons : lastKeywordMatch (wv :: kws) lower =
        kws.foldl (fun a x => if strHasStr x.1 lower then some x.2 else a)
          (if strHasStr wv.1 lower then some wv.2 else none) := rfl
    rw [List.foldl_cons, ih, hcons, lastKeywordMatch_from]
    by_cases hhit : strHasStr wv.1 lower = true <;>
      cases hL : lastKeywordMatch kws lower <;> simp [hhit, hL, prefsSet]

theorem extract_preferences_eq (text : String) (existing : Prefs) :
    extract_preferences text existing =
      { existing with
        detail_level :=
          (match lastKeywordMatch detailKeywords (toLowerStr text) with
           | some v => some v
           | none => existing.detail_level),
        tone :=
          (match lastKeywordMatch toneKeywords (toLowerStr text) with
           | some v => some v
           | none => existing.tone) } := by
  have hstep : extract_preferences text existing =
      toneKeywords.foldl (fun u wv =>
        if strHasStr wv.1 (toLowerStr text) then prefsSet u "tone" wv.2
        else u)
        (detailKeywords.foldl (fun u wv =>
          if strHasStr wv.1 (toLowerStr text) then
            prefsSet u "detail_level" wv.2
          else u) existing) := rfl
  rw [hstep, foldl_detail_eq, foldl_tone_eq]

/-- C8: preference extraction is pure (a new mapping is returned; the Lean
embedding is a pure function of `existing`); for each category the last
matching keyword in scan order determines the final value, categories with
no match retain their prior value, and with no match at all the result is
value-equal to `existing`. -/
theorem C8_extract_preferences_last_match (text : String) (existing : Prefs) :
    ((extract_preferences text existing).detail_level =
      (match lastKeywordMatch detailKeywords (toLowerStr text) with
       | some v => some v
       | none => existing.detail_level)) ∧
    ((extract_preferences text existing).tone =
      (match lastKeywordMatch toneKeywords (toLowerStr text) with
       | some v => some v
       | none => existing.tone)) ∧
    (lastKeywordMatch detailKeywords (toLowerStr text) = none →
     lastKeywordMatch toneKeywords (toLowerStr text) = none →
     extract_preferences text existing = existing) := by
  refine ⟨by rw [extract_preferences_eq], by rw [extract_preferences_eq],
    fun h1 h2 => ?_⟩
  rw [extract_preferences_eq, h1, h2]

/-- Witness for C8 no-match case: a text without catalog keywords leaves the
existing preferences unchanged. -/
theorem C8_extract_preferences_last_match_witness :
    lastKeywordMatch detailKeywords (toLowerStr "hello there") = none ∧
    lastKeywordMatch toneKeywords (toLowerStr "hello there") = none ∧
    extract_preferences "hello there"
      { detail_level := some "brief", tone := none } =
      { detail_level := some "brief", tone := none } :=
  ⟨by decide, by decide,
   (C8_extract_preferences_last_match "hello there"
     { detail_level := some "brief", tone := none }).2.2 (by decide) (by decide)⟩

/-- Counterexample to C5 as stated: a session whose messages total exactly
24000 characters with no prior digest, but held in a single message — the
threshold is met yet `maybe_compress` is a no-op (nothing is older than the
4-message retention window), so `compressed_context` stays absent and the
message count stays 1, not 4. -/
theorem C5_counterexample :
    COMPRESSION_THRESHOLD ≤ totalChars exS5 ∧
    exS5.compressed_context = none ∧
    maybe_compress exS5 constLLM = exS5 ∧
    ¬ ((maybe_compress exS5 constLLM).compressed_context ≠ none ∧
       (maybe_compress exS5 constLLM).messages.length = 4) := by
  have hs : sumLens exS5.messages = 24000 := by
    simp [sumLens, exS5, initSession, mkUserMsg, bigA_length]
  have htot : totalChars exS5 = 24000 := by
    rw [totalChars_of_cc_none exS5 rfl, hs]
  have hnoop : maybe_compress exS5 constLLM = exS5 :=
    maybe_compress_small exS5 constLLM
      (by simp [exS5, initSession, mkUserMsg]) rfl
  refine ⟨by rw [htot]; decide, rfl, hnoop, ?_⟩
  rw [hnoop]
  simp [exS5, initSession]

/-- C5 (amended): for every session with at least 24000 total characters, no
prior compressed context, and more than 4 messages (so something is older
than the retention window), compression fires: `compressed_context` becomes
set to the summarizer output over the elided prefix and the message list
drops to exactly the 4 most recent messages. -/
theorem C5_compression_fires (s : Session) (llm : String → String)
    (h1 : COMPRESSION_THRESHOLD ≤ totalChars s)
    (h2 : s.compressed_context = none)
    (h3 : 4 < s.messages.length) :
    (maybe_compress s llm).compressed_context =
      some (compress_history (s.messages.take (s.messages.length - 4))
        s.current_plan s.user_preferences llm) ∧
    (maybe_compress s llm).messages =
      s.messages.drop (s.messages.length - 4) ∧
    (maybe_compress s llm).messages.length = 4 := by
  have hfire := maybe_compress_fires s llm h1 h3
  rw [hfire]
  have hcc : optStrTruthy s.compressed_context = false := by
    rw [h2]
    rfl
  refine ⟨by simp [hcc], rfl, ?_⟩
  simp only [List.length_drop]
  omega

/-- Witness for C5 (amended) at five 5000-character messages. -/
theorem C5_compression_fires_witness :
    (COMPRESSION_THRESHOLD ≤ totalChars exS5w ∧
     exS5w.compressed_context = none ∧
     4 < exS5w.messages.length) ∧
    ((maybe_compress exS5w constLLM).compressed_context =
      some (compress_history (exS5w.messages.take (exS5w.messages.length - 4))
        exS5w.current_plan exS5w.user_preferences constLLM) ∧
     (maybe_compress exS5w constLLM).messages =
      exS5w.messages.drop (exS5w.messages.length - 4) ∧
     (maybe_compress exS5w constLLM).messages.length = 4) := by
  have hs : sumLens exS5w.messages = 25000 := by
    simp [sumLens, exS5w, initSession, mkUserMsg, bigA_length]
  have htot : totalChars exS5w = 25000 := by
    rw [totalChars_of_cc_none exS5w rfl, hs]
  have h1 : COMPRESSION_THRESHOLD ≤ totalChars exS5w := by
    rw [htot]
    decide
  have h2 : exS5w.compressed_context = none := rfl
  have h3 : 4 < exS5w.messages.length := by
    simp [exS5w, initSession]
  exact ⟨⟨h1, h2, h3⟩, C5_compression_fires exS5w constLLM h1 h2 h3⟩

set_option maxRecDepth 40000 in
/-- Counterexample to C6 as stated: after compression fires on `exS6base`
(one tiny plus four 6000-character messages), the retained 4-message tail
plus the new digest still meets the threshold, so an immediate re-run is NOT
a no-op — it re-summarizes the digest and changes `compressed_context`. -/
theorem C6_counterexample :
    exS6base.compressed_context = none ∧
    maybe_compress exS6base lenLLM = exS6fired ∧
    maybe_compress exS6fired lenLLM ≠ exS6fired := by
  have hx : ("x" : String).length = 1 := rfl
  have hsb : sumLens exS6base.messages = 24001 := by
    simp [sumLens, exS6base, initSession, mkUserMsg, bigA_length, hx]
  have htotb : totalChars exS6base = 24001 := by
    rw [totalChars_of_cc_none exS6base rfl, hsb]
  have h1b : COMPRESSION_THRESHOLD ≤ totalChars exS6base := by
    rw [htotb]
    decide
  have h2b : 4 < exS6base.messages.length := by
    simp [exS6base, initSession]
  have hfired : maybe_compress exS6base lenLLM = exS6fired := by
    rw [maybe_compress_fires exS6base lenLLM h1b h2b]
    rfl
  have hne2 : exS6digest.data.isEmpty = false := by decide
  have h3f : optStrTruthy exS6fired.compressed_context = true := by
    show optStrTruthy (some exS6digest) = true
    simp [optStrTruthy, hne2]
  have hsf : sumLens exS6fired.messages = 24000 := by
    simp [sumLens, exS6fired, exS6base, initSession, mkUserMsg, bigA_length]
  have htotf : totalChars exS6fired = 24000 + exS6digest.length := by
    rw [totalChars_of_cc_some exS6fired exS6digest rfl hne2, hsf]
  have h1f : COMPRESSION_THRESHOLD ≤ totalChars exS6fired := by
    rw [htotf]
    have h24 : COMPRESSION_THRESHOLD ≤ 24000 := by decide
    omega
  have h2f : exS6fired.messages.length ≤ 4 := by
    simp [exS6fired]
  have hrefire := maybe_compress_refire exS6fired lenLLM h1f h2f h3f
  refine ⟨rfl, hfired, ?_⟩
  rw [hrefire]
  intro hEq
  have hcc2 := congrArg Session.compressed_context hEq
  have hcc3 : some exS6digest2 = some exS6digest := hcc2
  have hne : exS6digest2 ≠ exS6digest := by decide
  exact hne (Option.some.inj hcc3)

/-- C6 (amended): re-running `maybe_compress` is a no-op exactly when the
session is strictly below the threshold, or when nothing is older than the
retention window and no digest exists; in particular, after a fire whose
retained tail plus digest is still at or above the threshold (including
exactly at it), the digest is re-summarized rather than left alone. -/
theorem C6_recompress_noop (s : Session) (llm : String → String)
    (h : totalChars s < COMPRESSION_THRESHOLD ∨
         (s.messages.length ≤ 4 ∧
          optStrTruthy s.compressed_context = false)) :
    maybe_compress s llm = s := by
  rcases h with h | ⟨h1, h2⟩
  · simp only [maybe_compress, if_pos h]
  · exact maybe_compress_small s llm h1 h2

/-- Witness for C6 (amended) at a fresh empty session. -/
theorem C6_recompress_noop_witness :
    (totalChars (initSession "w6" none) < COMPRESSION_THRESHOLD ∨
     ((initSession "w6" none).messages.length ≤ 4 ∧
      optStrTruthy (initSession "w6" none).compressed_context = false)) ∧
    maybe_compress (initSession "w6" none) constLLM = initSession "w6" none :=
  ⟨Or.inl (by decide),
   C6_recompress_noop (initSession "w6" none) constLLM (Or.inl (by decide))⟩

/-- Counterexample to C7 as stated: with `compressed_context` present but
empty (`some ""`), the assembled context has NO leading system entry (Python
truthiness skips it), contradicting "one system entry ... when it is
present"; the lone entry is the user message. -/
theorem C7_counterexample :
    exS7.compressed_context = some "" ∧
    build_context_messages exS7 = [{ role := "user", content := "m" }] :=
  ⟨rfl, rfl⟩

/-- C7 (amended): the assembled context starts with one system entry for
`compressed_context` when it is present AND non-empty (Python truthiness:
`some ""` contributes no entry), followed by exactly the non-blocked
messages in original order; blocked messages remain in the session's message
log and are all still returned by the history endpoint. -/
theorem C7_context_assembly (s : Session) :
    (optStrTruthy s.compressed_context = true →
      build_context_messages s = ctxHead s :: ctxTail s) ∧
    (optStrTruthy s.compressed_context = false →
      build_context_messages s = ctxTail s) ∧
    (ctxHead s).role = "system" ∧
    ctxTail s = (s.messages.filter (fun m => !m.is_blocked)).map
      (fun m => { role := roleValue m.role, content := m.content }) ∧
    get_history s = s.messages.map
      (fun m => { role := roleValue m.role, content := m.content,
                  timestamp := m.timestamp }) ∧
    (get_history s).length = s.messages.length := by
  refine ⟨fun h => ?_, fun h => ?_, rfl, rfl, rfl, by simp [get_history]⟩
  · simp [build_context_messages, ctxHead, ctxTail, h]
  · simp [build_context_messages, ctxHead, ctxTail, h]

/-- Witness for C7 (amended): non-empty digest, one blocked and one live
message — the context is the system entry plus the one live message, while
history still returns both messages. -/
theorem C7_context_assembly_witness :
    optStrTruthy exS7w.compressed_context = true ∧
    build_context_messages exS7w = ctxHead exS7w :: ctxTail exS7w ∧
    exS7w.messages.length = 2 ∧
    (ctxTail exS7w).length = 1 ∧
    (get_history exS7w).length = 2 :=
  ⟨by decide, (C7_context_assembly exS7w).1 (by decide), by decide,
   by decide, by decide⟩

/-- Counterexample to C9 as stated: on a degraded turn over a session whose
`pending_plan` is set and whose version count is 0, the chat response
reports `awaiting_confirmation = false` although `pending_plan` is still
set, and `plan_version = None` although the count of plan versions is 0. -/
theorem C9_counterexample :
    (chat exS9 "hi" constLLM none).1.pending_plan = some exPlanW ∧
    (chat exS9 "hi" constLLM none).2.awaiting_confirmation = false ∧
    (chat exS9 "hi" constLLM none).1.plan_versions.length = 0 ∧
    (chat exS9 "hi" constLLM none).2.plan_version = none := by
  decide

/-- C9 (amended): on a successful turn the response's plan echoes
`current_plan` when action is NONE and otherwise the decision's plan,
`awaiting_confirmation` is true iff `pending_plan` is set after the turn,
and `plan_version` equals the version count when positive and is absent
(None) when the count is zero; on a degraded turn the response reports
action NONE, the session's `current_plan`, `awaiting_confirmation` false
regardless of `pending_plan`, `plan_version` count-or-None likewise, and the
fixed fallback text. -/
theorem C9_chat_response_fields (s : Session) (u : String)
    (llm : String → String) (r : AgentResponse) :
    ((chat s u llm (some r)).2.plan =
      (if r.action ≠ ActionType.NONE then r.plan
       else (run_turn s u llm (some r)).current_plan) ∧
     (chat s u llm (some r)).2.awaiting_confirmation =
      (run_turn s u llm (some r)).pending_plan.isSome ∧
     (chat s u llm (some r)).2.plan_version =
      (if (run_turn s u llm (some r)).plan_versions.length = 0 then none
       else some (run_turn s u llm (some r)).plan_versions.length) ∧
     (chat s u llm (some r)).2.turn_count =
      (run_turn s u llm (some r)).turn_count) ∧
    ((chat s u llm none).2.action = ActionType.NONE ∧
     (chat s u llm none).2.plan = (run_turn s u llm none).current_plan ∧
     (chat s u llm none).2.awaiting_confirmation = false ∧
     (chat s u llm none).2.plan_version =
      (if (run_turn s u llm none).plan_versions.length = 0 then none
       else some (run_turn s u llm none).plan_versions.length) ∧
     (chat s u llm none).2.response = fallbackChatText) := by
  constructor
  · refine ⟨rfl, rfl, ?_, rfl⟩
    show (if (run_turn s u llm (some r)).plan_versions.isEmpty then none
          else some (run_turn s u llm (some r)).plan_versions.length) = _
    cases hv : (run_turn s u llm (some r)).plan_versions <;> simp
  · refine ⟨rfl, rfl, rfl, ?_, rfl⟩
    show (if (run_turn s u llm none).plan_versions.isEmpty then none
          else some (run_turn s u llm none).plan_versions.length) = _
    cases hv : (run_turn s u llm none).plan_versions <;> simp

end PlanIt
